import Mathlib

/-!
Verification development for the feed synchronizer and ranking engine of the
`rss` repository (source file `rss.go`).

The Go code is shallowly embedded:
* `time.Time` values are modelled as `Int` (nanoseconds since an arbitrary
  epoch); `t1.After(t2)` in Go is `t2 < t1` here.
* Go's stdlib `time.Parse` is an external library call; the sync layer is
  therefore parameterized over an arbitrary `timeParse : String → String →
  Option Int` (one attempt of one layout on one input), and a concrete
  executable model of `time.Parse` restricted to the four layouts appearing in
  `dateFormats` is provided further below for the claims about the format
  list itself.
* The fetch/parse collaborator (`gofeed`) is modelled by its result: an
  `Except` value handed to `CheckNewArticles`.
* `float64` arithmetic in the ranking engine is modelled by real arithmetic.
* Database effects: `CheckNewArticles` mutates `feed` through a pointer and
  calls `db.Save`; the embedding returns the updated feed alongside the
  result.  The article store used by `LoadArticle` is modelled as a partial
  map `Int → Option Article` (`none` = no row, in which case gorm's `First`
  leaves the destination pointer nil).
-/

namespace Rss

/-- Feed record (rss.go lines 39-43).  The gorm-managed bookkeeping columns
other than the primary key are omitted; `id` stands for `gorm.Model.ID`. -/
structure Feed where
  id : Nat
  url : String
  lastCheckedTime : Int
  deriving DecidableEq

/-- Article record (rss.go lines 22-32) restricted to the fields that
`CheckNewArticles` populates; the gorm-managed id and the feed back-reference
are assigned later by the persistence layer. -/
structure Article where
  read : Bool
  title : String
  link : String
  description : String
  published : Int
  fetched : Int
  deriving DecidableEq

/-- One raw item as returned by the gofeed collaborator: `CheckNewArticles`
reads `item.Title`, `item.Link`, `item.Description` and the raw date string
`item.Published`. -/
structure RawItem where
  title : String
  link : String
  description : String
  published : String
  deriving DecidableEq

/-- attemptTimeParse (rss.go lines 85-99): try each layout in order with
`time.Parse`, return the first success; after exhausting all layouts, fail.
`timeParse` is the stdlib `time.Parse` collaborator (layout, input); the
error value carried by the Go version is dropped (`Option` keeps only
success/failure, which is all the caller inspects). -/
def attemptTimeParse {T : Type} (timeParse : String → String → Option T)
    (formats : List String) (input : String) : Option T :=
  match formats with
  | [] => none
  | format :: rest =>
    match timeParse format input with
    | some parsedTime => some parsedTime
    | none => attemptTimeParse timeParse rest input

/-- Go constant `time.RFC1123`. -/
def rfc1123 : String := "Mon, 02 Jan 2006 15:04:05 MST"

/-- Go constant `time.RFC3339`. -/
def rfc3339 : String := "2006-01-02T15:04:05Z07:00"

/-- Go constant `time.RFC1123Z`. -/
def rfc1123Z : String := "Mon, 02 Jan 2006 15:04:05 -0700"

/-- dateFormats (rss.go lines 102-107): the layout list tried by
`CheckNewArticles`, in source order. -/
def dateFormats : List String :=
  [rfc1123, rfc3339, rfc1123Z, "Mon, 2 Jan 2006 15:04:05 -0700"]

/-- The article literal built for a new item (rss.go lines 130-137). -/
def buildArticle (item : RawItem) (pubDate checkTime : Int) : Article :=
  { read := false
    title := item.title
    link := item.link
    description := item.description
    published := pubDate
    fetched := checkTime }

/-- CheckNewArticles (rss.go lines 101-143).  `fetchResult` is the outcome of
`gofeed.ParseURLWithContext` on `feed.URL` (error = network failure,
malformed document, or the 30s context timeout); `checkTime` is the
`time.Now()` captured before the fetch.  On fetch failure the wrapped error
is returned and the feed is untouched.  Otherwise each item's date is parsed
with `attemptTimeParse`; parse failures are logged and skipped (`continue`),
items with `pubDate.After(feed.LastCheckedTime)` are materialized, and
finally `feed.LastCheckedTime` is set to `checkTime` (the `db.Save` is
modelled by returning the updated feed for persistence). -/
def CheckNewArticles (timeParse : String → String → Option Int)
    (fetchResult : Except String (List RawItem)) (checkTime : Int)
    (feed : Feed) : Except String (List Article) × Feed :=
  match fetchResult with
  | Except.error err =>
      (Except.error ("couldnt parse " ++ feed.url ++ ": " ++ err), feed)
  | Except.ok items =>
      let articles := items.filterMap (fun item =>
        match attemptTimeParse timeParse dateFormats item.published with
        | none => none
        | some pubDate =>
          if feed.lastCheckedTime < pubDate then
            some (buildArticle item pubDate checkTime)
          else
            none)
      (Except.ok articles, { feed with lastCheckedTime := checkTime })

/-- C1: for every feed, when the fetch/parse collaborator returns a result
(even an empty one), `CheckNewArticles` succeeds and sets the feed's
`LastCheckedTime` watermark to the `checkTime` captured at the start of the
call, regardless of how many items were new and regardless of per-item
date-parse failures (both the item list and the per-layout parser are
universally quantified). -/
theorem checkNewArticles_success_sets_watermark
    (timeParse : String → String → Option Int) (items : List RawItem)
    (checkTime : Int) (feed : Feed) :
    (CheckNewArticles timeParse (Except.ok items) checkTime feed).2.lastCheckedTime
        = checkTime ∧
    ∃ arts, (CheckNewArticles timeParse (Except.ok items) checkTime feed).1
        = Except.ok arts := by
  exact ⟨rfl, _, rfl⟩

/-- C2: for every feed, when the fetch/parse collaborator fails,
`CheckNewArticles` returns the feed completely unchanged (in particular the
`LastCheckedTime` watermark keeps its pre-call value), produces no items, and
reports the wrapped failure to the caller. -/
theorem checkNewArticles_failure_preserves_feed
    (timeParse : String → String → Option Int) (e : String)
    (checkTime : Int) (feed : Feed) :
    (CheckNewArticles timeParse (Except.error e) checkTime feed).2 = feed ∧
    (CheckNewArticles timeParse (Except.error e) checkTime feed).1
        = Except.error ("couldnt parse " ++ feed.url ++ ": " ++ e) := by
  exact ⟨rfl, rfl⟩

/-- C3: the membership characterization of the new-items list.  Every
materialized article has its published timestamp strictly after the watermark
as it stood before the call (so an item published exactly at the watermark is
excluded), and conversely every item whose parsed date is strictly after the
watermark is materialized. -/
theorem checkNewArticles_boundary_exclusive
    (timeParse : String → String → Option Int) (items : List RawItem)
    (checkTime : Int) (feed : Feed) (arts : List Article) (feed' : Feed)
    (h : CheckNewArticles timeParse (Except.ok items) checkTime feed
        = (Except.ok arts, feed')) :
    (∀ a ∈ arts, feed.lastCheckedTime < a.published) ∧
    (∀ item ∈ items, ∀ t,
        attemptTimeParse timeParse dateFormats item.published = some t →
        feed.lastCheckedTime < t → buildArticle item t checkTime ∈ arts) := by
  have harts : items.filterMap (fun item =>
      match attemptTimeParse timeParse dateFormats item.published with
      | none => none
      | some pubDate =>
        if feed.lastCheckedTime < pubDate then
          some (buildArticle item pubDate checkTime)
        else none) = arts := by
    have := congrArg Prod.fst h
    simpa [CheckNewArticles] using this
  subst harts
  constructor
  · intro a ha
    obtain ⟨item, hmem, hf⟩ := List.mem_filterMap.mp ha
    cases hp : attemptTimeParse timeParse dateFormats item.published with
    | none => simp [hp] at hf
    | some t =>
      rw [hp] at hf
      by_cases hlt : feed.lastCheckedTime < t
      · simp only [hlt, if_pos] at hf
        cases hf
        exact hlt
      · simp [hlt] at hf
  · intro item hmem t hp hlt
    exact List.mem_filterMap.mpr ⟨item, hmem, by simp [hp, hlt]⟩

/-- C4: one unparseable date string is a per-item recoverable failure: the
offending item is skipped (`continue`), the sync result is exactly what it
would have been without that item (so all remaining items are still
processed), and the watermark is still advanced to `checkTime`. -/
theorem checkNewArticles_skips_bad_date
    (timeParse : String → String → Option Int)
    (pre : List RawItem) (bad : RawItem) (post : List RawItem)
    (checkTime : Int) (feed : Feed)
    (hbad : attemptTimeParse timeParse dateFormats bad.published = none) :
    CheckNewArticles timeParse (Except.ok (pre ++ bad :: post)) checkTime feed
      = CheckNewArticles timeParse (Except.ok (pre ++ post)) checkTime feed ∧
    (CheckNewArticles timeParse (Except.ok (pre ++ bad :: post))
        checkTime feed).2.lastCheckedTime = checkTime := by
  refine ⟨?_, rfl⟩
  simp [CheckNewArticles, List.filterMap_append, List.filterMap_cons, hbad]

/-- C9, amended: the second of two back-to-back syncs yields an empty
new-items list provided every item's parsed date is at or before the first
sync's `checkTime` (the watermark left by the first call), and the watermark
does not regress provided the second `checkTime` is not earlier than the
first. -/
theorem sync_idempotent_amended
    (timeParse : String → String → Option Int) (items : List RawItem)
    (t1 t2 : Int) (feed : Feed)
    (h12 : t1 ≤ t2)
    (hstale : ∀ item ∈ items, ∀ t,
        attemptTimeParse timeParse dateFormats item.published = some t →
        t ≤ t1) :
    (CheckNewArticles timeParse (Except.ok items) t2
        (CheckNewArticles timeParse (Except.ok items) t1 feed).2).1
      = Except.ok [] ∧
    (CheckNewArticles timeParse (Except.ok items) t1 feed).2.lastCheckedTime ≤
      (CheckNewArticles timeParse (Except.ok items) t2
        (CheckNewArticles timeParse (Except.ok items) t1 feed).2).2.lastCheckedTime := by
  refine ⟨?_, h12⟩
  have hnil : items.filterMap (fun item =>
      match attemptTimeParse timeParse dateFormats item.published with
      | none => none
      | some pubDate =>
        if ({ feed with lastCheckedTime := t1 } : Feed).lastCheckedTime < pubDate then
          some (buildArticle item pubDate t2)
        else none) = [] := by
    rw [List.filterMap_eq_nil_iff]
    intro item hitem
    cases hp : attemptTimeParse timeParse dateFormats item.published with
    | none => simp
    | some t =>
      have ht : t ≤ t1 := hstale item hitem t hp
      have hnlt : ¬ t1 < t := not_lt.mpr ht
      simp [hnlt]
  exact congrArg Except.ok hnil

/-- Concrete per-layout parser used only by witnesses and counterexamples: a
small table mapping the date strings of the concrete items below to integer
timestamps, failing on everything else. -/
def tpInt : String → String → Option Int := fun _ input =>
  if input = "5" then some 5
  else if input = "7" then some 7
  else if input = "100" then some 100
  else none

/-- Concrete raw item whose date string parses (under `tpInt`) to 5. -/
def itFive : RawItem := ⟨"t5", "l5", "d5", "5"⟩

/-- Concrete raw item whose date string fails to parse under `tpInt`. -/
def itBad : RawItem := ⟨"tb", "lb", "db", "notadate"⟩

/-- Concrete raw item whose date string parses (under `tpInt`) to 7. -/
def itSeven : RawItem := ⟨"t7", "l7", "d7", "7"⟩

/-- Concrete raw item whose date string parses (under `tpInt`) to 100, i.e.
a publication instant after both sync times used in the C9 counterexample. -/
def itFuture : RawItem := ⟨"tf", "lf", "df", "100"⟩

/-- Concrete feed with watermark 2. -/
def feedW : Feed := ⟨1, "u", 2⟩

/-- Concrete feed with the zero (never-checked) watermark. -/
def feedZero : Feed := ⟨2, "v", 0⟩

/-- C3 witness: a concrete run where the boundary theorem applies. -/
theorem checkNewArticles_boundary_exclusive_witness :
    feedW.lastCheckedTime < (buildArticle itFive 5 10).published :=
  (checkNewArticles_boundary_exclusive tpInt [itFive] 10 feedW
      [buildArticle itFive 5 10] { feedW with lastCheckedTime := 10 }
      (by rfl)).1
    (buildArticle itFive 5 10) (by simp)

/-- C4 witness: with one unparseable item between two good ones, the sync
result equals the run without the bad item. -/
theorem checkNewArticles_skips_bad_date_witness :
    CheckNewArticles tpInt (Except.ok [itFive, itBad, itSeven]) 10 feedW
      = CheckNewArticles tpInt (Except.ok [itFive, itSeven]) 10 feedW :=
  (checkNewArticles_skips_bad_date tpInt [itFive] itBad [itSeven] 10 feedW
      (by decide)).1

/-- C9 counterexample: a feed whose single item carries a publication date
(100) after both checkTimes (10, then 20).  The upstream content is identical
on both calls, yet the second call returns the item again — the new-items
list is not empty, refuting the unconditional idempotence claim. -/
theorem sync_twice_returns_future_item_again :
    (CheckNewArticles tpInt (Except.ok [itFuture]) 20
        (CheckNewArticles tpInt (Except.ok [itFuture]) 10 feedZero).2).1
      = Except.ok [buildArticle itFuture 100 20] ∧
    Except.ok [buildArticle itFuture 100 20]
      ≠ (Except.ok [] : Except String (List Article)) := by
  refine ⟨by rfl, ?_⟩
  intro h
  injection h with h'
  exact List.cons_ne_nil _ _ h'

/-- C9 witness: the amended idempotence theorem at a concrete feed whose
item dates all precede the first checkTime. -/
theorem sync_idempotent_amended_witness :
    (CheckNewArticles tpInt (Except.ok [itFive]) 20
        (CheckNewArticles tpInt (Except.ok [itFive]) 10 feedW).2).1
      = Except.ok [] :=
  (sync_idempotent_amended tpInt [itFive] 10 20 feedW (by norm_num)
      (by
        intro item hitem t hp
        simp only [List.mem_singleton] at hitem
        subst hitem
        have hfive : attemptTimeParse tpInt dateFormats itFive.published
            = some 5 := by decide
        rw [hfive] at hp
        injection hp with h5
        omega)).1

/-- weightScore (rss.go lines 245-251), the closure inside `searchArticles`:
`la := -math.Log(age); recip := 1 / la; ws := score + recip`.  `float64`
arithmetic is modelled by real arithmetic (`math.Log` by `Real.log`); note
the Go code applies no clamping of any kind to `age`. -/
noncomputable def weightScore (score age : ℝ) : ℝ :=
  let la := -Real.log age
  let recip := 1 / la
  let ws := score + recip
  ws

/-- The age computation of rss.go line 264:
`age := time.Since(article.Published).Hours() / 24`, with `time.Since`
returning `now - published` in nanoseconds and `Hours()` dividing by
3 600 000 000 000. -/
noncomputable def ageDays (now published : Int) : ℝ :=
  (((now - published : Int) : ℝ) / (3600 * 1000000000)) / 24

/-- One bleve search hit: document id string and relevance score. -/
structure Hit where
  id : String
  score : ℝ

/-- Model of Go's `strconv.Atoi`: an optional sign followed by at least one
digit, nothing else (the int64 overflow check is omitted — irrelevant at the
sizes considered here). -/
def digitsToNat : List Char → Option Nat
  | [] => none
  | [c] => if c.isDigit then some (c.toNat - '0'.toNat) else none
  | c :: rest =>
    if c.isDigit then
      (digitsToNat rest).map (fun n =>
        (c.toNat - '0'.toNat) * 10 ^ rest.length + n)
    else none

/-- strconv.Atoi, see `digitsToNat`. -/
def goAtoi (s : String) : Option Int :=
  match s.toList with
  | [] => none
  | c :: rest =>
    if c = '-' then (digitsToNat rest).map (fun n => -(n : Int))
    else if c = '+' then (digitsToNat rest).map (fun n => (n : Int))
    else (digitsToNat (c :: rest)).map (fun n => (n : Int))

/-- LoadArticle (rss.go lines 45-48): `db.First(&a, ID); return a, nil`.
The error reported by gorm's `First` (notably `ErrRecordNotFound`) is
discarded, so the returned error is unconditionally nil; on a lookup miss
the destination pointer stays nil (modelled `none`).  `db` is the article
store, a partial map from id to record. -/
def LoadArticle (db : Int → Option Article) (id : Int) :
    Option Article × Option String :=
  (db id, none)

/-- scoredArticle (rss.go lines 291-296). -/
structure scoredArticle where
  article : Article
  age : ℝ
  score : ℝ
  weightedScore : ℝ

/-- Outcome of the hit-processing loop of `searchArticles`: a normal result
list, an early `return fmt.Errorf(...)` aborting the whole search, or a Go
runtime panic (nil-pointer dereference), which also aborts everything. -/
inductive SearchOutcome (α : Type) where
  | ok (val : α)
  | errAbort (msg : String)
  | panicked

/-- The per-hit loop of searchArticles (rss.go lines 257-272).  For each hit:
`strconv.Atoi(hit.ID)`; on failure the hit is silently skipped (the `if err
== nil` has no else branch).  Otherwise `LoadArticle`; a non-nil error would
make `searchArticles` return immediately (`errAbort`) — that branch is dead
because `LoadArticle` never reports an error — and the loop then reads
`article.Published` from the returned pointer, which on a lookup miss is nil
and panics.  Otherwise the scored entry is appended in hit order. -/
noncomputable def collectHits (db : Int → Option Article) (now : Int) :
    List Hit → SearchOutcome (List scoredArticle)
  | [] => SearchOutcome.ok []
  | hit :: rest =>
    match goAtoi hit.id with
    | none => collectHits db now rest
    | some id =>
      match LoadArticle db id with
      | (_, some e) =>
          SearchOutcome.errAbort
            ("error converting search result " ++ toString id ++ ": " ++ e)
      | (none, none) => SearchOutcome.panicked
      | (some article, none) =>
        match collectHits db now rest with
        | SearchOutcome.ok xs =>
            SearchOutcome.ok
              ({ article := article
                 age := ageDays now article.published
                 score := hit.score
                 weightedScore :=
                   weightScore hit.score (ageDays now article.published) }
                :: xs)
        | SearchOutcome.errAbort m => SearchOutcome.errAbort m
        | SearchOutcome.panicked => SearchOutcome.panicked

/-- The descending comparison of byWeightedScore (rss.go lines 298-302):
`Less(i, j) = a[i].weightedScore > a[j].weightedScore`; a list is sorted for
`sort.Sort` when earlier entries are not less than later ones, i.e. pairwise
`b.weightedScore ≤ a.weightedScore`. -/
def byWeightedScore (a b : scoredArticle) : Prop :=
  b.weightedScore ≤ a.weightedScore

noncomputable instance : DecidableRel byWeightedScore :=
  fun a b => Real.decidableLE b.weightedScore a.weightedScore

instance : IsTotal scoredArticle byWeightedScore :=
  ⟨fun a b => (le_total b.weightedScore a.weightedScore).elim Or.inl Or.inr⟩

instance : IsTrans scoredArticle byWeightedScore :=
  ⟨fun _ _ _ h1 h2 => le_trans h2 h1⟩

/-- searchArticles (rss.go lines 244-289) for a non-empty query: the hit loop
followed by `sort.Sort(byWeightedScore(sortedResults))`.  Go's `sort.Sort`
deterministically produces some permutation ordered by `Less`; it is
modelled by insertion sort on the same comparison (the model fixes a tie
order, which no theorem below relies on). -/
noncomputable def searchArticles (db : Int → Option Article) (now : Int)
    (hits : List Hit) : SearchOutcome (List scoredArticle) :=
  match collectHits db now hits with
  | SearchOutcome.ok results =>
      SearchOutcome.ok (List.insertionSort byWeightedScore results)
  | SearchOutcome.errAbort m => SearchOutcome.errAbort m
  | SearchOutcome.panicked => SearchOutcome.panicked

/-- C5 counterexample: the age fed to `weightScore` is not clamped to a
positive epsilon floor, nor away from 1.  For an article published at the
same instant as `now` the computed age is exactly 0 (not positive), and for
an article exactly one day old it is exactly 1. -/
theorem ranking_age_not_clamped_counterexample :
    ageDays 0 0 = 0 ∧ ¬ (0 : ℝ) < ageDays 0 0 ∧ ageDays 86400000000000 0 = 1 := by
  refine ⟨?_, ?_, ?_⟩
  · simp [ageDays]
  · simp [ageDays]
  · simp only [ageDays]
    norm_num

/-- C5, amended: `searchArticles` applies no guard at all: the age passed to
`weightScore` is exactly `(now - published)` in fractional days — 0 for an
article published at `now`, negative for an article published after `now`,
and exactly 1 for an article exactly one day old, at which point the
denominator `-ln(age)` inside `weightScore` is 0, so the boost is a division
by zero (in Go, an infinite or NaN float; division is merely totalized in
this real-number model). -/
theorem ranking_age_unclamped (t : Int) (score : ℝ) :
    ageDays t t = 0 ∧
    (∀ d : Int, 0 < d → ageDays t (t + d) < 0) ∧
    ageDays (t + 86400000000000) t = 1 ∧
    weightScore score 1 = score + 1 / (0 : ℝ) := by
  refine ⟨by simp [ageDays], ?_, ?_, ?_⟩
  · intro d hd
    have hd' : (0 : ℝ) < (d : ℝ) := by exact_mod_cast hd
    simp only [ageDays]
    push_cast
    have h1 : (t : ℝ) - ((t : ℝ) + (d : ℝ)) = -(d : ℝ) := by ring
    rw [h1]
    apply div_neg_of_neg_of_pos
    · apply div_neg_of_neg_of_pos
      · linarith
      · norm_num
    · norm_num
  · simp only [ageDays]
    push_cast
    have h1 : (t : ℝ) + 86400000000000 - (t : ℝ) = 86400000000000 := by ring
    rw [h1]
    norm_num
  · simp [weightScore, Real.log_one]

/-- C5 amended witness: a future-published article (one nanosecond ahead of
`now`) yields a strictly negative age, and at age exactly 1 the boost's
denominator is zero. -/
theorem ranking_age_unclamped_witness :
    ageDays 0 (0 + 1) < 0 ∧ weightScore 1 1 = 1 + 1 / (0 : ℝ) :=
  ⟨(ranking_age_unclamped 0 1).2.1 1 (by norm_num),
   (ranking_age_unclamped 0 1).2.2.2⟩

/-- C10: the blend is a boost only below one day of age: for ages strictly
between 0 and 1 day the weighted score strictly exceeds the raw relevance
score, while for ages strictly above 1 day it is strictly below it. -/
theorem weightScore_boost_and_penalty (score age : ℝ) :
    (0 < age → age < 1 → score < weightScore score age) ∧
    (1 < age → weightScore score age < score) := by
  constructor
  · intro h0 h1
    have hlog : Real.log age < 0 := Real.log_neg h0 h1
    have hla : (0 : ℝ) < -Real.log age := by linarith
    have hrecip : (0 : ℝ) < 1 / (-Real.log age) := one_div_pos.mpr hla
    show score < score + 1 / (-Real.log age)
    linarith
  · intro h1
    have hlog : (0 : ℝ) < Real.log age := Real.log_pos h1
    have hla : -Real.log age < 0 := by linarith
    have hrecip : 1 / (-Real.log age) < 0 := one_div_neg.mpr hla
    show score + 1 / (-Real.log age) < score
    linarith

/-- C10 witness: at relevance 1, a half-day-old article is boosted above 1
and a two-day-old article is penalized below 1. -/
theorem weightScore_boost_and_penalty_witness :
    (1 : ℝ) < weightScore 1 (1 / 2) ∧ weightScore 1 2 < 1 :=
  ⟨(weightScore_boost_and_penalty 1 (1 / 2)).1 (by norm_num) (by norm_num),
   (weightScore_boost_and_penalty 1 2).2 (by norm_num)⟩

/-- C6: whenever the search completes normally, its output is ordered by the
`byWeightedScore` comparison (descending final score, pairwise), and the
whole pipeline is a function of the corpus, the clock, and the index hits:
two runs over identical inputs produce the identical result order. -/
theorem searchArticles_sorted_and_deterministic :
    (∀ (db : Int → Option Article) (now : Int) (hits : List Hit)
        (res : List scoredArticle),
      searchArticles db now hits = SearchOutcome.ok res →
      res.Pairwise byWeightedScore) ∧
    (∀ (db1 db2 : Int → Option Article) (now1 now2 : Int)
        (hits1 hits2 : List Hit),
      db1 = db2 → now1 = now2 → hits1 = hits2 →
      searchArticles db1 now1 hits1 = searchArticles db2 now2 hits2) := by
  constructor
  · intro db now hits res h
    unfold searchArticles at h
    cases hc : collectHits db now hits with
    | ok xs =>
      rw [hc] at h
      cases h
      exact List.sorted_insertionSort byWeightedScore xs
    | errAbort m => rw [hc] at h; cases h
    | panicked => rw [hc] at h; cases h
  · intro db1 db2 now1 now2 hits1 hits2 h1 h2 h3
    subst h1; subst h2; subst h3; rfl

/-- Concrete stored article (published at instant 6). -/
def artSix : Article := ⟨false, "a", "l", "d", 6, 9⟩

/-- Concrete article store holding `artSix` under id 5 and nothing else. -/
def dbOne : Int → Option Article := fun id => if id = 5 then some artSix else none

/-- C6 witness: a concrete one-hit search completes normally and the sorted
theorem applies to its output. -/
theorem searchArticles_sorted_witness :
    List.Pairwise byWeightedScore
      [({ article := artSix
          age := ageDays 20 artSix.published
          score := 1
          weightedScore := weightScore 1 (ageDays 20 artSix.published) }
        : scoredArticle)] :=
  searchArticles_sorted_and_deterministic.1 dbOne 20 [⟨"5", 1⟩] _ (by rfl)

/-- C7: a hit whose article id is absent from storage (a stale index entry)
is NOT skipped: `LoadArticle` swallows the lookup error and returns a nil
article with a nil error, and the loop then dereferences the nil pointer —
the whole search aborts with a runtime panic instead of ranking the
remaining hits (and the loop's own error branch, were it ever reachable,
would likewise abort the whole search via an early return). -/
theorem searchArticles_stale_hit_panics :
    searchArticles (fun _ => none) 0 [⟨"5", 1⟩] = SearchOutcome.panicked := by
  rfl

/-! Model of Go's standard-library `time.Parse`, restricted to the reference
elements occurring in the four layouts of `dateFormats` (`Mon`, `Jan`,
`2006`, `01`, `02`, `2`, `15`, `04`, `05`, `MST`, `-0700`, `Z07:00`, and
literal characters).  `time.Parse` is external to this repository; the model
follows the Go source's behaviour for these elements: fixed-width numeric
elements (`02`, `01`, `04`, `05`) demand exactly two digits, non-fixed ones
(`2`, `15`) accept one or two, names are matched against the short
weekday/month tables, a named zone must start with upper-case letters, a
numeric zone is a sign plus four digits, and leftover input after the layout
is exhausted is an error.  The zone's semantic effect on the instant is not
modelled (only parse success/failure matters below), and `parseTimeZone` is
simplified to three-or-four upper-case letters, which agrees with Go on
every string considered here. -/

/-- Numeric value of a digit character. -/
def charVal (c : Char) : Nat := c.toNat - '0'.toNat

/-- Go's internal `getnum`: one or two digits; with `fixed` set, a
single digit is rejected. -/
def getnum (s : List Char) (fixed : Bool) : Option (Nat × List Char) :=
  match s with
  | [] => none
  | c1 :: rest =>
    if c1.isDigit then
      match rest with
      | c2 :: rest2 =>
        if c2.isDigit then some (10 * charVal c1 + charVal c2, rest2)
        else if fixed then none
        else some (charVal c1, rest)
      | [] => if fixed then none else some (charVal c1, [])
    else none

/-- Four mandatory digits (the `2006` year element). -/
def getnum4 (s : List Char) : Option (Nat × List Char) :=
  match s with
  | c1 :: c2 :: c3 :: c4 :: rest =>
    if c1.isDigit && c2.isDigit && c3.isDigit && c4.isDigit then
      some (1000 * charVal c1 + 100 * charVal c2 + 10 * charVal c3
              + charVal c4, rest)
    else none
  | _ => none

/-- Match a literal character sequence as a required input prefix, returning
the remaining input. -/
def matchStr : List Char → List Char → Option (List Char)
  | [], s => some s
  | _ :: _, [] => none
  | p :: ps, c :: cs => if p = c then matchStr ps cs else none

/-- Go's name-table lookup: first table entry that is a prefix of the input
wins; returns its index and the remaining input. -/
def lookupNameFrom : Nat → List String → List Char → Option (Nat × List Char)
  | _, [], _ => none
  | i, n :: ns, s =>
    match matchStr n.toList s with
    | some rest => some (i, rest)
    | none => lookupNameFrom (i + 1) ns s

/-- Go's `shortDayNames` table. -/
def shortDayNames : List String :=
  ["Sun", "Mon", "Tue", "Wed", "Thu", "Fri", "Sat"]

/-- Go's `shortMonthNames` table. -/
def shortMonthNames : List String :=
  ["Jan", "Feb", "Mar", "Apr", "May", "Jun",
   "Jul", "Aug", "Sep", "Oct", "Nov", "Dec"]

/-- ASCII upper-case letter test. -/
def isUpperLetter (c : Char) : Bool := 'A' ≤ c && c ≤ 'Z'

/-- Named-zone abbreviation (the `MST` element): three upper-case letters,
extended to four when a fourth upper-case letter follows. -/
def parseNamedZone : List Char → Option (String × List Char)
  | c1 :: c2 :: c3 :: rest =>
    if isUpperLetter c1 && isUpperLetter c2 && isUpperLetter c3 then
      match rest with
      | c4 :: rest4 =>
        if isUpperLetter c4 then some (String.mk [c1, c2, c3, c4], rest4)
        else some (String.mk [c1, c2, c3], rest)
      | [] => some (String.mk [c1, c2, c3], [])
    else none
  | _ => none

/-- Numeric zone (the `-0700` element): a sign and four digits, minutes
below 60; yields the offset in minutes. -/
def parseNumericZone (s : List Char) : Option (Int × List Char) :=
  match s with
  | sign :: h1 :: h2 :: m1 :: m2 :: rest =>
    if (sign = '+' || sign = '-') && h1.isDigit && h2.isDigit
        && m1.isDigit && m2.isDigit then
      let hh := 10 * charVal h1 + charVal h2
      let mm := 10 * charVal m1 + charVal m2
      if mm ≤ 59 then
        let total : Int := hh * 60 + mm
        some (if sign = '-' then -total else total, rest)
      else none
    else none
  | _ => none

/-- ISO zone (the `Z07:00` element): the letter `Z` for UTC, or a sign,
two digits, a colon, and two digits. -/
def parseIsoColonZone : List Char → Option (Int × Bool × List Char)
  | 'Z' :: rest => some (0, true, rest)
  | sign :: h1 :: h2 :: ':' :: m1 :: m2 :: rest =>
    if (sign = '+' || sign = '-') && h1.isDigit && h2.isDigit
        && m1.isDigit && m2.isDigit then
      let hh := 10 * charVal h1 + charVal h2
      let mm := 10 * charVal m1 + charVal m2
      if mm ≤ 59 then
        let total : Int := hh * 60 + mm
        some (if sign = '-' then -total else total, false, rest)
      else none
    else none
  | _ => none

/-- Result of one successful `time.Parse` call, restricted to the fields set
by the layouts of `dateFormats`; defaults match Go's (January 1, year 0,
midnight, UTC-less zero zone).  The parsed weekday name is not recorded:
Go never cross-checks it against the date. -/
structure ParsedTime where
  year : Nat := 0
  month : Nat := 1
  day : Nat := 1
  hour : Nat := 0
  minute : Nat := 0
  second : Nat := 0
  zoneName : String := ""
  zoneOffsetMinutes : Int := 0
  zoneIsUTC : Bool := false
  deriving DecidableEq

/-- The layout walker of `time.Parse` (Go's `nextStdChunk` loop) for the
elements of `dateFormats`: each recognized element consumes its input; any
other layout character is a literal that must match the input exactly;
when the layout is exhausted, leftover input is an error. -/
def goParseChunks : List Char → List Char → ParsedTime → Option ParsedTime
  | [], input, acc => if input.isEmpty then some acc else none
  | '2' :: '0' :: '0' :: '6' :: restL, input, acc =>
    match getnum4 input with
    | some (y, restI) => goParseChunks restL restI { acc with year := y }
    | none => none
  | '0' :: '1' :: restL, input, acc =>
    match getnum input true with
    | some (m, restI) => goParseChunks restL restI { acc with month := m }
    | none => none
  | '0' :: '2' :: restL, input, acc =>
    match getnum input true with
    | some (d, restI) => goParseChunks restL restI { acc with day := d }
    | none => none
  | '0' :: '4' :: restL, input, acc =>
    match getnum input true with
    | some (mi, restI) => goParseChunks restL restI { acc with minute := mi }
    | none => none
  | '0' :: '5' :: restL, input, acc =>
    match getnum input true with
    | some (sec, restI) => goParseChunks restL restI { acc with second := sec }
    | none => none
  | '1' :: '5' :: restL, input, acc =>
    match getnum input false with
    | some (h, restI) => goParseChunks restL restI { acc with hour := h }
    | none => none
  | '2' :: restL, input, acc =>
    match getnum input false with
    | some (d, restI) => goParseChunks restL restI { acc with day := d }
    | none => none
  | 'M' :: 'o' :: 'n' :: restL, input, acc =>
    match lookupNameFrom 0 shortDayNames input with
    | some (_, restI) => goParseChunks restL restI acc
    | none => none
  | 'J' :: 'a' :: 'n' :: restL, input, acc =>
    match lookupNameFrom 0 shortMonthNames input with
    | some (i, restI) => goParseChunks restL restI { acc with month := i + 1 }
    | none => none
  | 'M' :: 'S' :: 'T' :: restL, input, acc =>
    match parseNamedZone input with
    | some (z, restI) => goParseChunks restL restI { acc with zoneName := z }
    | none => none
  | '-' :: '0' :: '7' :: '0' :: '0' :: restL, input, acc =>
    match parseNumericZone input with
    | some (off, restI) =>
        goParseChunks restL restI { acc with zoneOffsetMinutes := off }
    | none => none
  | 'Z' :: '0' :: '7' :: ':' :: '0' :: '0' :: restL, input, acc =>
    match parseIsoColonZone input with
    | some (off, isZ, restI) =>
        goParseChunks restL restI
          { acc with zoneOffsetMinutes := off, zoneIsUTC := isZ }
    | none => none
  | c :: restL, input, acc =>
    match input with
    | c2 :: restI => if c = c2 then goParseChunks restL restI acc else none
    | [] => none

/-- Gregorian leap-year rule (Go's `isLeap`). -/
def isLeap (y : Nat) : Bool := y % 4 == 0 && (y % 100 != 0 || y % 400 == 0)

/-- Days in a month (Go's `daysIn`). -/
def daysIn (m y : Nat) : Nat :=
  if m = 2 then (if isLeap y then 29 else 28)
  else if m = 4 || m = 6 || m = 9 || m = 11 then 30
  else 31

/-- Go's post-parse range validation: month 1-12, day within the month,
hour below 24, minute and second below 60. -/
def validateParsed (p : ParsedTime) : Option ParsedTime :=
  if p.month < 1 || 12 < p.month then none
  else if p.day < 1 || daysIn p.month p.year < p.day then none
  else if 23 < p.hour || 59 < p.minute || 59 < p.second then none
  else some p

/-- Model of `time.Parse layout value` for the layouts of `dateFormats`:
walk the layout, then range-validate. -/
def goTimeParse (layout value : String) : Option ParsedTime :=
  match goParseChunks layout.toList value.toList {} with
  | some p => validateParsed p
  | none => none

/-- C8 counterexample: the fourth combination of the RFC1123 family — day
without leading zero together with a named time zone — is not covered by
`dateFormats`: a date string in exactly that shape fails all four layouts
(`time.RFC1123` demands a two-digit day, `time.RFC1123Z` and the custom
layout demand a numeric zone, `time.RFC3339` does not fit at all), so
normalization fails. -/
theorem dateFormats_missing_combination :
    attemptTimeParse goTimeParse dateFormats
      "Mon, 2 Jan 2006 15:04:05 MST" = none := by
  decide

/-- C8, amended: the list covers three of the four "day, DD Mon YYYY
HH:MM:SS TZ" combinations — leading-zero day with named zone (RFC1123),
leading-zero day with numeric zone (RFC1123Z), bare day with numeric zone
(the custom layout) — plus the machine-readable RFC3339 convention (with
either Z or a numeric offset); date strings in those shapes normalize
successfully, while the bare-day named-zone shape fails. -/
theorem dateFormats_cover_three_of_four :
    (attemptTimeParse goTimeParse dateFormats
        "Mon, 02 Jan 2006 15:04:05 MST").isSome = true ∧
    (attemptTimeParse goTimeParse dateFormats
        "Mon, 02 Jan 2006 15:04:05 -0700").isSome = true ∧
    (attemptTimeParse goTimeParse dateFormats
        "Mon, 2 Jan 2006 15:04:05 -0700").isSome = true ∧
    (attemptTimeParse goTimeParse dateFormats
        "2006-01-02T15:04:05Z").isSome = true ∧
    (attemptTimeParse goTimeParse dateFormats
        "2006-01-02T15:04:05+07:00").isSome = true ∧
    attemptTimeParse goTimeParse dateFormats
        "Mon, 2 Jan 2006 15:04:05 MST" = none := by
  exact ⟨by decide, by decide, by decide, by decide, by decide, by decide⟩

end Rss
